import Mathlib

/-!
Shallow embedding of `custom_components/elero/cover.py` (class `EleroCover`),
the per-channel cover state machine of the Elero Home Assistant integration.

Numbers (positions, times, travel times) are embedded as rationals `ℚ`:
every arithmetic step the claims exercise is exact in Python floats as well.
Mutable attributes of the Python object become fields of `CoverState`;
`None` becomes `Option.none`.  A Python exception (e.g. `float(None)` raising
`TypeError`, or a `ZeroDivisionError`) is embedded as an `Option.none` result
of the operation.  Radio commands sent through the transmitter and timers
armed via `hass.loop.call_later` are returned as an explicit effect record:
the source never stores the handle returned by `call_later`, so no timer is
ever cancelled - firing a timer simply applies its action to whatever the
state is at fire time.
-/

namespace EleroCover

/-- The status codes delivered by the transmitter (the `INFO_*` constants of
the `elero` package; their string values live outside this repository, so the
closed set is embedded as an inductive).  `unrecognized` stands for any value
outside the known taxonomy (the final `else` of `set_states`). -/
inductive Status where
  | noInformation
  | topPositionStop
  | bottomPositionStop
  | intermediatePositionStop
  | tiltVentilationPosStop
  | startToMoveUp
  | startToMoveDown
  | movingUp
  | movingDown
  | stoppedInUndefinedPosition
  | topPosStopWithTiltPos
  | bottomPosStopWithIntPos
  | blocking
  | overheated
  | timeout
  | switchingDeviceSwitchedOn
  | switchingDeviceSwitchedOff
  | unrecognized
deriving DecidableEq

/-- Radio commands handed to the transmitter (`self._transmitter.up` etc.). -/
inductive Tx where
  | up
  | down
  | stop
  | info
  | ventilationTilting
  | intermediate
deriving DecidableEq

/-- The two kinds of callback the source arms with `hass.loop.call_later`:
`self.update` (which only asks the transmitter for a status refresh and
mutates nothing), and the `stop_cover_after_travel_time` closure of
`set_cover_position` (which calls `self.stop_cover()`). -/
inductive TimerAction where
  | update
  | stopCover
deriving DecidableEq

/-- A pending timer: absolute fire time paired with its action. -/
abbrev Timer := ℚ × TimerAction

/-- Position slider constants (cover.py lines 59-63). -/
def POSITION_CLOSED : ℚ := 0

def POSITION_INTERMEDIATE : ℚ := 75

def POSITION_OPEN : ℚ := 100

def POSITION_TILT_VENTILATION : ℚ := 25

def POSITION_UNDEFINED : ℚ := 50

/-- State label constants (`homeassistant.const.STATE_*` and the Elero
additions of cover.py lines 66-69). -/
def STATE_CLOSED : String := "closed"

def STATE_CLOSING : String := "closing"

def STATE_OPEN : String := "open"

def STATE_OPENING : String := "opening"

def STATE_UNKNOWN : String := "unknown"

def STATE_INTERMEDIATE : String := "intermediate"

def STATE_STOPPED : String := "stopped"

def STATE_TILT_VENTILATION : String := "ventilation/tilt"

def STATE_UNDEFINED : String := "undefined"

/-- The mutable per-channel attributes of `EleroCover` (set in `__init__`,
cover.py lines 180-192).  `travel_time` is the configured full-travel
duration; everything else starts unknown. -/
structure CoverState where
  position : Option ℚ
  is_opening : Option Bool
  is_closing : Option Bool
  closed : Option Bool
  tilt_position : Option ℚ
  state : Option String
  elero_state : Option Status
  travel_time : ℚ
  last_known_position : Option ℚ
  tmp_position : Option ℚ
  start_time : Option ℚ
  last_operation : Option String
deriving DecidableEq

/-- The side effects of one command invocation: radio commands transmitted,
timers armed (absolute fire time, action), and whether `_LOGGER.error` was
called.  Effects only ever accumulate: the source has no cancellation path. -/
structure Eff where
  tx : List Tx
  timers : List Timer
  err : Bool
deriving DecidableEq

/-- No transmission, no timer, no error report. -/
def Eff.silent : Eff := ⟨[], [], false⟩

/-- No transmission, no timer, but `_LOGGER.error` was called. -/
def Eff.errorOnly : Eff := ⟨[], [], true⟩

/-- Python truthiness of an optional boolean (`if self._is_opening:` is
taken when the attribute is `True`, not when it is `False` or `None`). -/
def truthy : Option Bool → Bool
  | some b => b
  | none => false

/-- The state right after `__init__` (cover.py lines 180-192): every dynamic
attribute `None`, `travel_time` from configuration. -/
def mkInitial (travel_time : ℚ) : CoverState :=
  { position := none
    is_opening := none
    is_closing := none
    closed := none
    tilt_position := none
    state := none
    elero_state := none
    travel_time := travel_time
    last_known_position := none
    tmp_position := none
    start_time := none
    last_operation := none }

/-- `close_cover` (cover.py lines 284-298).  Transmits `down`, sets the
closing label, records `start_time := now`, snapshots
`tmp_position := float(position)` - which raises `TypeError` when `position`
is `None`, embedded as result `none` - optimistically writes
`last_known_position := POSITION_CLOSED`, `last_operation := "close"`,
sets `position := 0` unless suppressed, and arms an `update` timer after
`travel_time`. -/
def close_cover (s : CoverState) (now : ℚ) (doNotSetPosition : Bool) :
    Option (CoverState × Eff) :=
  match s.position with
  | none => none
  | some p =>
    let s1 : CoverState :=
      { s with state := some STATE_CLOSING
               start_time := some now
               tmp_position := some p
               last_known_position := some POSITION_CLOSED
               last_operation := some "close" }
    let s2 : CoverState :=
      if doNotSetPosition then s1 else { s1 with position := some 0 }
    some (s2, ⟨[Tx.down], [(now + s.travel_time, TimerAction.update)], false⟩)

/-- `open_cover` (cover.py lines 300-314).  Symmetric to `close_cover`:
transmits `up`, opening label, `start_time := now`,
`tmp_position := float(position)` (raises on `None`),
`last_known_position := POSITION_OPEN`, `last_operation := "open"`,
`position := 100` unless suppressed, `update` timer after `travel_time`. -/
def open_cover (s : CoverState) (now : ℚ) (doNotSetPosition : Bool) :
    Option (CoverState × Eff) :=
  match s.position with
  | none => none
  | some p =>
    let s1 : CoverState :=
      { s with state := some STATE_OPENING
               start_time := some now
               tmp_position := some p
               last_known_position := some POSITION_OPEN
               last_operation := some "open" }
    let s2 : CoverState :=
      if doNotSetPosition then s1 else { s1 with position := some 100 }
    some (s2, ⟨[Tx.up], [(now + s.travel_time, TimerAction.update)], false⟩)

/-- `stop_cover` (cover.py lines 316-321).  Transmits `stop`, sets the
stopped label, clears `start_time`, records `last_operation := "stop"`.
Note: it does not touch `is_opening`, `is_closing`, `position`,
`last_known_position` or `tmp_position`, and it arms and cancels nothing. -/
def stop_cover (s : CoverState) : CoverState × Eff :=
  ({ s with state := some STATE_STOPPED
            start_time := none
            last_operation := some "stop" },
   ⟨[Tx.stop], [], false⟩)

/-- `set_cover_position` (cover.py lines 324-377).  Validation first: a
missing or out-of-range target, or an unknown `last_known_position`, is
rejected with `_LOGGER.error` and no further effect.  Otherwise the source
immediately overwrites `last_known_position` with the current `position` and
sets `last_operation := "set_position"`; the local `current_position` holds
that (old) `position` value.  Equal target: early return.  A target of
exactly 100 or 0 first runs `open_cover`/`close_cover` with the position
write enabled.  Then `move_time := abs(target - current)/100*travel_time`
(raises `TypeError` when `current` is `None`), an `update` timer at
`move_time`, a second `open_cover`/`close_cover` with the position write
suppressed, `position := target`, and finally the
`stop_cover_after_travel_time` closure armed at `move_time` - the closure
only calls `stop_cover`; it pins nothing. -/
def set_cover_position (s : CoverState) (now : ℚ) (position : Option ℚ) :
    Option (CoverState × Eff) :=
  match position with
  | none => some (s, Eff.errorOnly)
  | some target =>
    if target < 0 ∨ 100 < target then some (s, Eff.errorOnly)
    else if s.last_known_position = none then some (s, Eff.errorOnly)
    else
      let s1 : CoverState :=
        { s with last_known_position := s.position
                 last_operation := some "set_position" }
      if s.position = some target then some (s1, Eff.silent)
      else
        let step1 : Option (CoverState × Eff) :=
          if target = 100 then
            (open_cover s1 now false).map
              (fun r => ({ r.1 with state := some STATE_OPENING }, r.2))
          else if target = 0 then
            (close_cover s1 now false).map
              (fun r => ({ r.1 with state := some STATE_CLOSING }, r.2))
          else some (s1, Eff.silent)
        match step1, s.position with
        | none, _ => none
        | some _, none => none
        | some (s2, e1), some c =>
          let move_time : ℚ := |target - c| / 100 * s.travel_time
          let step2 : Option (CoverState × Eff) :=
            if c < target then
              (open_cover s2 now true).map
                (fun r => ({ r.1 with state := some STATE_OPENING }, r.2))
            else
              (close_cover s2 now true).map
                (fun r => ({ r.1 with state := some STATE_CLOSING }, r.2))
          match step2 with
          | none => none
          | some (s3, e2) =>
            some ({ s3 with position := some target },
              ⟨e1.tx ++ e2.tx,
               e1.timers ++ [(now + move_time, TimerAction.update)]
                 ++ e2.timers ++ [(now + move_time, TimerAction.stopCover)],
               e1.err || e2.err⟩)

/-- The position estimate of the `INFO_STOPPED_IN_UNDEFINED_POSITION` branch
(cover.py line 511): `float(elapsed_time / self._travel_time) * 100`. -/
def delta_position (elapsed travel : ℚ) : ℚ := elapsed / travel * 100

/-- Opening estimate (cover.py line 520): `min(tmp + delta, 100)`. -/
def estOpening (tmp elapsed travel : ℚ) : ℚ :=
  min (tmp + delta_position elapsed travel) 100

/-- Closing estimate (cover.py line 522): `max(tmp - delta, 0)`. -/
def estClosing (tmp elapsed travel : ℚ) : ℚ :=
  max (tmp - delta_position elapsed travel) 0

/-- `set_states` (cover.py lines 422-587), reached via `response_handler`
with `self._response["status"]` passed here directly as `status`; `now` is
`time.time()` at processing time.  Each branch is transcribed literally.
In the `INFO_NO_INFORMATION` branch the source assigns `_closed = None` and
then `_closed = False`, net `False`.  In the undefined-stop branch the
Python truthiness test `if self._start_time` treats both `None` and `0.0`
as "no start time"; `travel_time = 0` would raise `ZeroDivisionError` and
a `None` `tmp_position` under a truthy movement flag would raise
`TypeError`, both embedded as `none`. -/
def set_states (s : CoverState) (status : Status) (now : ℚ) :
    Option CoverState :=
  let s := { s with elero_state := some status }
  match status with
  | Status.noInformation =>
    some { s with closed := some false
                  state := some STATE_UNKNOWN
                  position := none
                  tilt_position := none
                  last_operation := none
                  is_closing := some false
                  is_opening := some false }
  | Status.topPositionStop =>
    some { s with state := some STATE_OPEN
                  position := some POSITION_OPEN
                  tilt_position := some POSITION_UNDEFINED
                  last_known_position := some POSITION_OPEN
                  last_operation := none
                  closed := some false
                  is_closing := some false
                  is_opening := some false }
  | Status.bottomPositionStop =>
    some { s with state := some STATE_CLOSED
                  position := some POSITION_CLOSED
                  tilt_position := some POSITION_UNDEFINED
                  last_known_position := some POSITION_CLOSED
                  last_operation := none
                  closed := some true
                  is_closing := some false
                  is_opening := some false }
  | Status.intermediatePositionStop =>
    some { s with state := some STATE_INTERMEDIATE
                  position := some POSITION_INTERMEDIATE
                  tilt_position := some POSITION_INTERMEDIATE
                  last_known_position := some POSITION_CLOSED
                  last_operation := none
                  closed := some false
                  is_closing := some false
                  is_opening := some false }
  | Status.tiltVentilationPosStop =>
    some { s with state := some STATE_TILT_VENTILATION
                  position := some POSITION_TILT_VENTILATION
                  tilt_position := some POSITION_TILT_VENTILATION
                  last_operation := none
                  closed := some false
                  is_closing := some false
                  is_opening := some false }
  | Status.startToMoveUp =>
    let s := { s with state := some STATE_OPENING
                      tilt_position := some POSITION_UNDEFINED
                      closed := some false
                      is_closing := some false
                      is_opening := some true }
    some (if s.last_operation ≠ some "set_position" then
            { s with position := some POSITION_OPEN }
          else s)
  | Status.startToMoveDown =>
    let s := { s with state := some STATE_CLOSING
                      tilt_position := some POSITION_UNDEFINED
                      closed := some false
                      is_closing := some true
                      is_opening := some false }
    some (if s.last_operation ≠ some "set_position" then
            { s with position := some POSITION_CLOSED }
          else s)
  | Status.movingUp =>
    let s := { s with state := some STATE_OPENING
                      tilt_position := some POSITION_UNDEFINED
                      closed := some false
                      is_closing := some false
                      is_opening := some true }
    some (if s.last_operation ≠ some "set_position" then
            { s with position := some POSITION_OPEN }
          else s)
  | Status.movingDown =>
    let s := { s with state := some STATE_CLOSING
                      tilt_position := some POSITION_UNDEFINED
                      closed := some false
                      is_closing := some true
                      is_opening := some false }
    some (if s.last_operation ≠ some "set_position" then
            { s with position := some POSITION_CLOSED }
          else s)
  | Status.stoppedInUndefinedPosition =>
    let elapsed : ℚ :=
      match s.start_time with
      | some t => if t = 0 then 0 else now - t
      | none => 0
    let s := { s with start_time := none }
    if s.travel_time = (0 : ℚ) then none
    else
      let newPos : Option (Option ℚ) :=
        if truthy s.is_opening then
          match s.tmp_position with
          | none => none
          | some tp => some (some (estOpening tp elapsed s.travel_time))
        else if truthy s.is_closing then
          match s.tmp_position with
          | none => none
          | some tp => some (some (estClosing tp elapsed s.travel_time))
        else some s.position
      match newPos with
      | none => none
      | some new_position =>
        some { s with
          position := new_position
          last_known_position := new_position
          tmp_position := new_position
          state := some (if new_position = some 0 then STATE_CLOSED
                         else if new_position = some 100 then STATE_OPEN
                         else STATE_STOPPED)
          tilt_position := some POSITION_UNDEFINED
          last_operation := none
          closed := some (decide (new_position = some 0))
          is_closing := some false
          is_opening := some false }
  | Status.topPosStopWithTiltPos =>
    some { s with state := some STATE_TILT_VENTILATION
                  position := some POSITION_TILT_VENTILATION
                  tilt_position := some POSITION_TILT_VENTILATION
                  last_operation := none
                  closed := some false
                  is_closing := some false
                  is_opening := some false }
  | Status.bottomPosStopWithIntPos =>
    some { s with state := some STATE_INTERMEDIATE
                  position := some POSITION_INTERMEDIATE
                  tilt_position := some POSITION_INTERMEDIATE
                  last_operation := none
                  closed := some true
                  is_closing := some false
                  is_opening := some false }
  | Status.blocking =>
    some { s with state := some STATE_UNKNOWN
                  position := none
                  tilt_position := none
                  closed := none
                  is_closing := none
                  is_opening := none }
  | Status.overheated =>
    some { s with state := some STATE_UNKNOWN
                  position := none
                  tilt_position := none
                  closed := none
                  is_closing := none
                  is_opening := none }
  | Status.timeout =>
    some { s with state := some STATE_UNKNOWN
                  position := none
                  tilt_position := none
                  closed := none
                  is_closing := none
                  is_opening := none }
  | Status.switchingDeviceSwitchedOn =>
    some { s with state := some STATE_UNKNOWN
                  position := none
                  tilt_position := none
                  closed := none
                  is_closing := none
                  is_opening := none }
  | Status.switchingDeviceSwitchedOff =>
    some { s with state := some STATE_UNKNOWN
                  position := none
                  tilt_position := none
                  closed := none
                  is_closing := none
                  is_opening := none }
  | Status.unrecognized =>
    some { s with state := some STATE_UNKNOWN
                  position := none
                  tilt_position := none
                  closed := none
                  is_closing := none
                  is_opening := none }

/-! ## Concrete states and traces used by the claim theorems -/

/-- A channel whose position and last known position are both 80, not
moving, travel time 50 (the SetPosition scenario's starting point). -/
def c5s : CoverState :=
  { mkInitial 50 with
      position := some 80
      last_known_position := some 80
      is_opening := some false
      is_closing := some false }

/-- The cover state right after `set_cover_position(30)` at time 5 from
`c5s`. -/
def c5mid : CoverState :=
  ((set_cover_position c5s 5 (some 30)).map Prod.fst).getD c5s

/-- The effects of that `set_cover_position(30)` call. -/
def c5eff : Eff :=
  ((set_cover_position c5s 5 (some 30)).map Prod.snd).getD Eff.silent

/-- The cover state after the scheduled `stop_cover_after_travel_time`
closure fires (it only calls `stop_cover`). -/
def c5end : CoverState := (stop_cover c5mid).1

/-- Same starting channel for the stale-timer trace. -/
def c1s : CoverState :=
  { mkInitial 50 with
      position := some 80
      last_known_position := some 80
      is_opening := some false
      is_closing := some false }

/-- After `set_cover_position(30)` at time 5 from `c1s`. -/
def c1mid : CoverState :=
  ((set_cover_position c1s 5 (some 30)).map Prod.fst).getD c1s

/-- The effects (in particular the armed timers) of that call. -/
def c1eff : Eff :=
  ((set_cover_position c1s 5 (some 30)).map Prod.snd).getD Eff.silent

/-- After a subsequent `open_cover` at time 6, issued before the
SetPosition completion timer (due at time 30) has fired. -/
def c1open : CoverState :=
  ((open_cover c1mid 6 false).map Prod.fst).getD c1mid

/-- The effects of that `open_cover` call. -/
def c1openEff : Eff :=
  ((open_cover c1mid 6 false).map Prod.snd).getD Eff.silent

/-- A closed channel at position 0 (the result of processing
`INFO_BOTTOM_POSITION_STOP` on a fresh channel with travel time 50). -/
def c2start : CoverState :=
  (set_states (mkInitial 50) Status.bottomPositionStop 0).getD (mkInitial 50)

/-- After `open_cover` at time 10 from the closed channel: `tmp_position`
records 0 and `position` is optimistically 100. -/
def c2mid : CoverState :=
  ((open_cover c2start 10 false).map Prod.fst).getD c2start

/-- The state reached when only the Open command and the undefined-stop
status occur (no movement status in between), stop arriving at time 35. -/
def c2end : CoverState :=
  (set_states c2mid Status.stoppedInUndefinedPosition 35).getD c2mid

/-- After an intervening `INFO_START_TO_MOVE_UP` at time 11, which is what
actually sets the `is_opening` flag the estimator branches on. -/
def c2mov : CoverState :=
  (set_states c2mid Status.startToMoveUp 11).getD c2mid

/-- The undefined-stop result at time 35 when the movement status did
arrive. -/
def c2fin : CoverState :=
  (set_states c2mov Status.stoppedInUndefinedPosition 35).getD c2mov

/-- A channel at position 10 whose last known position is 100. -/
def c3cs : CoverState :=
  { mkInitial 50 with
      position := some 10
      last_known_position := some 100 }

/-- Result of `INFO_INTERMEDIATE_POSITION_STOP` on `c3cs`. -/
def c3ci : CoverState :=
  (set_states c3cs Status.intermediatePositionStop 0).getD c3cs

/-- A moving-up channel used to exercise every `set_states` branch of the
lastKnownPosition audit: `tmp_position` 0, `start_time` 10,
`last_known_position` 80, travel time 50. -/
def c3s : CoverState :=
  { mkInitial 50 with
      position := some 40
      is_opening := some true
      is_closing := some false
      last_known_position := some 80
      tmp_position := some 0
      start_time := some 10 }

/-- `set_states` results on `c3s` at time 35, one per audited status. -/
def c3rt : CoverState := (set_states c3s Status.topPositionStop 35).getD c3s

def c3rb : CoverState := (set_states c3s Status.bottomPositionStop 35).getD c3s

def c3ru : CoverState :=
  (set_states c3s Status.stoppedInUndefinedPosition 35).getD c3s

def c3ri : CoverState :=
  (set_states c3s Status.intermediatePositionStop 35).getD c3s

def c3rv : CoverState :=
  (set_states c3s Status.tiltVentilationPosStop 35).getD c3s

def c3rm : CoverState := (set_states c3s Status.movingUp 35).getD c3s

def c3rk : CoverState := (set_states c3s Status.blocking 35).getD c3s

/-- A channel at position 40 whose last known position is 80 and whose last
operation was a stop: the equal-target SetPosition input. -/
def c4s : CoverState :=
  { mkInitial 50 with
      position := some 40
      last_known_position := some 80
      last_operation := some "stop"
      is_opening := some false
      is_closing := some false }

/-- The state returned by the equal-target `set_cover_position(40)`. -/
def c4mid : CoverState :=
  ((set_cover_position c4s 0 (some 40)).map Prod.fst).getD c4s

/-- A channel whose `is_opening` flag is set (as after `INFO_MOVING_UP`). -/
def c7s : CoverState :=
  { mkInitial 50 with
      position := some 40
      is_opening := some true
      is_closing := some false
      start_time := some 3 }

/-! ## Claim theorems -/

/-- C1: evaluation of the code at the failing input.  The claim says a new
command invalidates any previously armed completion callback.  In the source
the handle returned by `hass.loop.call_later` is never stored, so nothing is
ever cancelled: after `set_cover_position(30)` at time 5 (which arms the
`stop_cover` closure for time 30) a fresh `open_cover` at time 6 leaves that
timer armed (its own effects only add a timer), and when the stale timer
fires it calls `stop_cover` on the opening channel, rewriting its state
label to stopped and clearing its start time - a mutation the claim says
must not happen. -/
theorem c1_stale_timer_mutates_after_new_command :
    (30, TimerAction.stopCover) ∈ c1eff.timers ∧
    c1openEff.timers = [(56, TimerAction.update)] ∧
    c1open.state = some STATE_OPENING ∧
    c1open.start_time = some 6 ∧
    (stop_cover c1open).1.state = some STATE_STOPPED ∧
    (stop_cover c1open).1.start_time = none ∧
    (stop_cover c1open).1 ≠ c1open := by
  norm_num [c1s, c1mid, c1eff, c1open, c1openEff, set_cover_position,
    open_cover, close_cover, stop_cover, mkInitial, Eff.silent, Eff.errorOnly,
    POSITION_CLOSED, POSITION_OPEN, STATE_CLOSING, STATE_OPENING,
    STATE_STOPPED, truthy, Option.some_ne_none, Option.some.injEq]
  all_goals decide

/-- C2 counterexample: with exactly the two events of the claim - `Open()`
on a channel at position 0 with travel time 50, then
`StoppedInUndefinedPosition` 25 seconds later - the source yields position
100 and state open, not position 50 and state stopped: `open_cover` never
sets the `_is_opening` flag the estimator branches on, so the estimate
branch is skipped and the optimistic 100 survives. -/
theorem c2_counterexample :
    c2start.position = some 0 ∧
    c2start.travel_time = 50 ∧
    c2mid.tmp_position = some 0 ∧
    c2mid.position = some 100 ∧
    c2mid.is_opening = some false ∧
    set_states c2mid Status.stoppedInUndefinedPosition 35 = some c2end ∧
    c2end.position = some 100 ∧
    ¬ c2end.position = some 50 ∧
    c2end.state = some STATE_OPEN ∧
    ¬ c2end.state = some STATE_STOPPED := by
  norm_num [c2start, c2mid, c2end, set_states, open_cover, mkInitial,
    estOpening, estClosing, delta_position, truthy, POSITION_CLOSED,
    POSITION_OPEN, POSITION_UNDEFINED, STATE_CLOSED, STATE_OPEN,
    STATE_OPENING, STATE_STOPPED, STATE_UNKNOWN, Option.some_ne_none,
    Option.some.injEq]
  all_goals decide

/-- C2 amended: the scenario holds once a `StartToMoveUp` status (which is
what sets `_is_opening`) arrives between the command and the stop: then the
undefined-position stop at 25 elapsed seconds yields
position `min(0 + 25/50*100, 100) = 50`, state stopped, closed false. -/
theorem c2_amended_scenario :
    c2mov.is_opening = some true ∧
    c2mov.tmp_position = some 0 ∧
    set_states c2mov Status.stoppedInUndefinedPosition 35 = some c2fin ∧
    c2fin.position = some 50 ∧
    c2fin.state = some STATE_STOPPED ∧
    c2fin.closed = some false ∧
    c2fin.last_known_position = some 50 := by
  norm_num [c2start, c2mid, c2mov, c2fin, set_states, open_cover, mkInitial,
    estOpening, estClosing, delta_position, truthy, POSITION_CLOSED,
    POSITION_OPEN, POSITION_UNDEFINED, STATE_CLOSED, STATE_OPEN,
    STATE_OPENING, STATE_STOPPED, Option.some_ne_none, Option.some.injEq]

/-- C3 counterexample: processing `INFO_INTERMEDIATE_POSITION_STOP` sets
position 75 but `last_known_position` to `POSITION_CLOSED = 0` (cover.py
line 459), so the resulting last known position differs from the resulting
position even though that position is not `None` - and is 0, not the 75 the
claim states. -/
theorem c3_counterexample :
    set_states c3cs Status.intermediatePositionStop 0 = some c3ci ∧
    c3ci.position = some 75 ∧
    c3ci.last_known_position = some 0 ∧
    ¬ c3ci.last_known_position = c3ci.position := by
  norm_num [c3cs, c3ci, set_states, mkInitial, POSITION_CLOSED,
    POSITION_INTERMEDIATE, STATE_INTERMEDIATE, Option.some_ne_none,
    Option.some.injEq]

/-- C3 amended: `last_known_position` tracks the resulting position only
for `TopPositionStop`, `BottomPositionStop` and
`StoppedInUndefinedPosition`; `IntermediatePositionStop` sets position 75
but last known position 0, `TiltVentilationPosStop` sets position 25 while
leaving the last known position unchanged, and every status outside these
five leaves `last_known_position` unchanged as well. -/
theorem c3_last_known_tracking (s : CoverState) (now : ℚ) :
    (∀ r, set_states s Status.topPositionStop now = some r →
      r.last_known_position = r.position) ∧
    (∀ r, set_states s Status.bottomPositionStop now = some r →
      r.last_known_position = r.position) ∧
    (∀ r, set_states s Status.stoppedInUndefinedPosition now = some r →
      r.last_known_position = r.position) ∧
    (∀ r, set_states s Status.intermediatePositionStop now = some r →
      r.position = some 75 ∧ r.last_known_position = some 0) ∧
    (∀ r, set_states s Status.tiltVentilationPosStop now = some r →
      r.position = some 25 ∧
        r.last_known_position = s.last_known_position) ∧
    (∀ status r, status ≠ Status.topPositionStop →
      status ≠ Status.bottomPositionStop →
      status ≠ Status.stoppedInUndefinedPosition →
      status ≠ Status.intermediatePositionStop →
      status ≠ Status.tiltVentilationPosStop →
      set_states s status now = some r →
      r.last_known_position = s.last_known_position) := by
  refine ⟨?_, ?_, ?_, ?_, ?_, ?_⟩
  · intro r h
    simp only [set_states] at h
    cases h
    rfl
  · intro r h
    simp only [set_states] at h
    cases h
    rfl
  · intro r h
    simp only [set_states] at h
    split at h
    · exact absurd h (by simp)
    · split at h
      · exact absurd h (by simp)
      · cases h
        rfl
  · intro r h
    simp only [set_states] at h
    cases h
    exact ⟨rfl, rfl⟩
  · intro r h
    simp only [set_states] at h
    cases h
    exact ⟨rfl, rfl⟩
  · intro status r h1 h2 h3 h4 h5 h
    cases status <;>
      first
        | exact absurd rfl h1
        | exact absurd rfl h2
        | exact absurd rfl h3
        | exact absurd rfl h4
        | exact absurd rfl h5
        | (simp only [set_states] at h
           cases h
           rfl)
        | (simp only [set_states] at h
           cases h
           split <;> rfl)

/-- C3 witness: the tracking theorem applied to the concrete moving-up
channel `c3s` at time 35, discharging each status-result hypothesis by
evaluation; the remaining-statuses clause is exercised at `MovingUp` and
`Blocking`. -/
theorem c3_last_known_tracking_witness :
    c3rt.last_known_position = c3rt.position ∧
    c3rb.last_known_position = c3rb.position ∧
    c3ru.last_known_position = c3ru.position ∧
    (c3ri.position = some 75 ∧ c3ri.last_known_position = some 0) ∧
    (c3rv.position = some 25 ∧
      c3rv.last_known_position = c3s.last_known_position) ∧
    c3rm.last_known_position = c3s.last_known_position ∧
    c3rk.last_known_position = c3s.last_known_position := by
  have h := c3_last_known_tracking c3s 35
  exact ⟨h.1 c3rt rfl, h.2.1 c3rb rfl, h.2.2.1 c3ru rfl,
    h.2.2.2.1 c3ri rfl, h.2.2.2.2.1 c3rv rfl,
    h.2.2.2.2.2 Status.movingUp c3rm (by decide) (by decide) (by decide)
      (by decide) (by decide) rfl,
    h.2.2.2.2.2 Status.blocking c3rk (by decide) (by decide) (by decide)
      (by decide) (by decide) rfl⟩

/-- C4 counterexample: SetPosition with the target equal to the current
position issues no transmission, but it is not a no-op on the state: before
the equal-target early return the source has already overwritten
`last_known_position` with the current position (80 becomes 40) and set
`last_operation` to set_position (cover.py lines 339-341). -/
theorem c4_counterexample :
    c4s.position = some 40 ∧
    c4s.last_known_position = some 80 ∧
    c4s.last_operation = some "stop" ∧
    set_cover_position c4s 0 (some 40) = some (c4mid, Eff.silent) ∧
    c4mid.last_known_position = some 40 ∧
    ¬ c4mid.last_known_position = c4s.last_known_position ∧
    c4mid.last_operation = some "set_position" ∧
    ¬ c4mid.last_operation = c4s.last_operation := by
  norm_num [c4s, c4mid, set_cover_position, mkInitial, Eff.silent,
    Eff.errorOnly, Option.some_ne_none, Option.some.injEq]
  all_goals decide

/-- C4 amended: when the target is in range, the last known position is
known, and the target equals the current position, SetPosition transmits
nothing, arms no timer and reports no error, and the only state change is
that `last_known_position` is overwritten with the current position and
`last_operation` becomes set_position. -/
theorem c4_equal_target (s : CoverState) (now target : ℚ)
    (h0 : 0 ≤ target) (h1 : target ≤ 100)
    (h2 : ¬ s.last_known_position = none) (h3 : s.position = some target) :
    set_cover_position s now (some target) =
      some ({ s with last_known_position := s.position
                     last_operation := some "set_position" }, Eff.silent) := by
  have hc1 : ¬ (target < 0 ∨ 100 < target) := by
    push_neg
    exact ⟨h0, h1⟩
  simp only [set_cover_position]
  rw [if_neg hc1, if_neg h2, if_pos h3]

/-- C4 witness: the amended theorem applied to the concrete channel `c4s`
with target 40. -/
theorem c4_equal_target_witness :
    set_cover_position c4s 0 (some 40) =
      some ({ c4s with last_known_position := c4s.position
                       last_operation := some "set_position" }, Eff.silent) :=
  c4_equal_target c4s 0 40 (by norm_num) (by norm_num)
    (by simp [c4s, mkInitial]) rfl

/-- C5 counterexample: `SetPosition(30)` from position 80 with travel time
50 does move in the closing direction for 25 seconds, but when the
completion closure fires it only calls `stop_cover`: nothing pins
`last_known_position` to the target, so it remains at the 0 written
optimistically by `close_cover`, not 30 as the claim states. -/
theorem c5_counterexample :
    set_cover_position c5s 5 (some 30) = some (c5mid, c5eff) ∧
    (30, TimerAction.stopCover) ∈ c5eff.timers ∧
    c5end.last_known_position = some 0 ∧
    ¬ c5end.last_known_position = some 30 := by
  norm_num [c5s, c5mid, c5eff, c5end, set_cover_position, open_cover,
    close_cover, stop_cover, mkInitial, Eff.silent, Eff.errorOnly,
    POSITION_CLOSED, POSITION_OPEN, STATE_CLOSING, STATE_OPENING,
    STATE_STOPPED, truthy, Option.some_ne_none, Option.some.injEq]

/-- C5 amended: the scenario's direction and timing hold - the command
transmits `down` and arms the completion closure 25 seconds out - and after
it fires the position is 30 (written at command time), the state label is
stopped and the start time is cleared; but `last_known_position` is 0, not
30, and the `is_opening`/`is_closing` flags are simply left unchanged. -/
theorem c5_amended_scenario :
    set_cover_position c5s 5 (some 30) = some (c5mid, c5eff) ∧
    c5eff.tx = [Tx.down] ∧
    c5eff.timers = [(30, TimerAction.update), (55, TimerAction.update),
      (30, TimerAction.stopCover)] ∧
    c5end = (stop_cover c5mid).1 ∧
    c5end.position = some 30 ∧
    c5end.state = some STATE_STOPPED ∧
    c5end.start_time = none ∧
    c5end.last_known_position = some 0 ∧
    c5end.is_opening = c5s.is_opening ∧
    c5end.is_closing = c5s.is_closing := by
  norm_num [c5s, c5mid, c5eff, c5end, set_cover_position, open_cover,
    close_cover, stop_cover, mkInitial, Eff.silent, Eff.errorOnly,
    POSITION_CLOSED, POSITION_OPEN, STATE_CLOSING, STATE_OPENING,
    STATE_STOPPED, truthy, Option.some_ne_none, Option.some.injEq]

/-- C6: a SetPosition whose target lies outside [0,100], or one issued
while the last known position is unknown, is rejected before any state
write: the returned state is the input state unchanged, no transmission
occurs, no timer is armed, and an error is reported. -/
theorem c6_rejects (s : CoverState) (now target : ℚ) :
    (target < 0 ∨ 100 < target →
      set_cover_position s now (some target) = some (s, Eff.errorOnly)) ∧
    (s.last_known_position = none →
      set_cover_position s now (some target) = some (s, Eff.errorOnly)) := by
  constructor
  · intro h
    simp only [set_cover_position]
    rw [if_pos h]
  · intro h
    by_cases hc : target < 0 ∨ 100 < target
    · simp only [set_cover_position]
      rw [if_pos hc]
    · simp only [set_cover_position]
      rw [if_neg hc, if_pos h]

/-- C6 witness: rejection of target 150 on a configured channel and of
target 40 on a freshly constructed channel (unknown last position). -/
theorem c6_rejects_witness :
    set_cover_position c4s 0 (some 150) = some (c4s, Eff.errorOnly) ∧
    set_cover_position (mkInitial 50) 0 (some 40) =
      some (mkInitial 50, Eff.errorOnly) :=
  ⟨(c6_rejects c4s 0 150).1 (by norm_num),
   (c6_rejects (mkInitial 50) 0 40).2 rfl⟩

/-- C7 counterexample: `stop_cover` on a channel whose `is_opening` flag is
set clears the start time and records the stop operation, but leaves
`is_opening` true - the movement flags are not reset to idle. -/
theorem c7_counterexample :
    (stop_cover c7s).1.last_operation = some "stop" ∧
    (stop_cover c7s).1.start_time = none ∧
    (stop_cover c7s).1.is_opening = some true := by decide

/-- C7 amended: from every state, Stop sets the state label to stopped,
records `last_operation = "stop"` and clears the start time, transmitting a
single stop command; the `is_opening`/`is_closing` flags (and every other
field) are left exactly as they were. -/
theorem c7_stop_effect (s : CoverState) :
    stop_cover s =
      ({ s with state := some STATE_STOPPED
                start_time := none
                last_operation := some "stop" },
       ⟨[Tx.stop], [], false⟩) := rfl

/-- C8: regardless of the prior channel state,
`INFO_BOTTOM_POSITION_STOP` always yields closed true and position 0, and
`INFO_TOP_POSITION_STOP` always yields closed false and position 100. -/
theorem c8_endstops (s : CoverState) (now : ℚ) :
    (∃ r, set_states s Status.bottomPositionStop now = some r ∧
      r.closed = some true ∧ r.position = some 0) ∧
    (∃ r, set_states s Status.topPositionStop now = some r ∧
      r.closed = some false ∧ r.position = some 100) :=
  ⟨⟨_, rfl, rfl, rfl⟩, ⟨_, rfl, rfl, rfl⟩⟩

/-- C9: the source's position estimate for the opening direction is exactly
`min(tmp + elapsed/travel*100, 100)`, never exceeds 100, and is monotone
non-decreasing in elapsed time; symmetrically the closing estimate is
`max(tmp - elapsed/travel*100, 0)`, never drops below 0, and is monotone
non-increasing in elapsed time. -/
theorem c9_estimator (tmp travel e1 e2 : ℚ) (h0 : 0 ≤ tmp)
    (h1 : tmp ≤ 100) (ht : 0 < travel) (he : 0 ≤ e1) (h12 : e1 ≤ e2) :
    estOpening tmp e1 travel = min (tmp + e1 / travel * 100) 100 ∧
    estOpening tmp e1 travel ≤ 100 ∧
    estOpening tmp e1 travel ≤ estOpening tmp e2 travel ∧
    estClosing tmp e1 travel = max (tmp - e1 / travel * 100) 0 ∧
    0 ≤ estClosing tmp e1 travel ∧
    estClosing tmp e2 travel ≤ estClosing tmp e1 travel := by
  have hdiv : e1 / travel ≤ e2 / travel :=
    div_le_div_of_nonneg_right h12 ht.le
  have hdelta : delta_position e1 travel ≤ delta_position e2 travel := by
    unfold delta_position
    nlinarith
  refine ⟨rfl, ?_, ?_, rfl, ?_, ?_⟩
  · exact min_le_right _ _
  · exact min_le_min (by linarith) le_rfl
  · exact le_max_right _ _
  · exact max_le_max (by linarith) le_rfl

/-- C9 witness: the estimator contract applied at tmp 0, travel time 50,
elapsed times 25 and 30. -/
theorem c9_estimator_witness :
    estOpening 0 25 50 = min (0 + 25 / 50 * 100) 100 ∧
    estOpening 0 25 50 ≤ 100 ∧
    estOpening 0 25 50 ≤ estOpening 0 30 50 ∧
    estClosing 0 25 50 = max (0 - 25 / 50 * 100) 0 ∧
    0 ≤ estClosing 0 25 50 ∧
    estClosing 0 30 50 ≤ estClosing 0 25 50 :=
  c9_estimator 0 50 25 30 (by norm_num) (by norm_num) (by norm_num)
    (by norm_num) (by norm_num)

/-- C10: position is unknown at construction and after a device-fault or
unrecognized status, and invoking Open or Close while position is unknown
ends in the `float(None)` `TypeError` (embedded as `none`) rather than in a
returned state or a reported error: the operations carry the unstated
precondition that position is known. -/
theorem c10_unknown_position :
    (∀ t : ℚ, (mkInitial t).position = none) ∧
    (∀ (s : CoverState) (now : ℚ) (r : CoverState),
      set_states s Status.blocking now = some r → r.position = none) ∧
    (∀ (s : CoverState) (now : ℚ) (r : CoverState),
      set_states s Status.unrecognized now = some r → r.position = none) ∧
    (∀ (s : CoverState) (now : ℚ) (d : Bool), s.position = none →
      open_cover s now d = none ∧ close_cover s now d = none) := by
  refine ⟨fun t => rfl, ?_, ?_, ?_⟩
  · intro s now r h
    simp only [set_states] at h
    cases h
    rfl
  · intro s now r h
    simp only [set_states] at h
    cases h
    rfl
  · intro s now d h
    constructor
    · simp [open_cover, h]
    · simp [close_cover, h]

/-- C10 witness: Open and Close on a freshly constructed channel (position
unknown) both end in the embedded exception. -/
theorem c10_unknown_position_witness :
    open_cover (mkInitial 50) 0 false = none ∧
    close_cover (mkInitial 50) 0 false = none :=
  c10_unknown_position.2.2.2 (mkInitial 50) 0 false rfl

end EleroCover
